import Mathlib

/-
Shallow embedding of the lead-generation pipeline in src/main.py.

External effects (the Google Custom Search provider, HTTP fetch,
BeautifulSoup text extraction and the OpenAI chat completion) are
modelled as oracle parameters; exceptions raised by the Python code are
modelled with Except.  Everything else (the response parser, the retry
loop, the batch orchestration and the CSV sink) is translated directly
from the source.
-/

namespace LeadGen

/-- Tunable constant MAX_RESULTS_PER_KEYWORD from main.py line 34. -/
def MAX_RESULTS_PER_KEYWORD : Nat := 5

/-- Tunable constant MAX_RETRIES from main.py line 35. -/
def MAX_RETRIES : Nat := 3

/-- Tunable constant RETRY_DELAY from main.py line 36 (seconds). -/
def RETRY_DELAY : Nat := 5

/-- Output filename constant CSV_FILE from main.py line 27. -/
def CSV_FILE : String := "lead_customer_list.csv"

/-- Keyword list SEARCH_KEYWORDS from main.py lines 28-33. -/
def SEARCH_KEYWORDS : List String :=
  ["software development company in New York",
   "marketing agency in London",
   "web design company in Los Angeles"]

/-- The company_data dictionary built in extract_company_info
(main.py lines 116-122): its five content fields, all defaulting to
the empty string. -/
structure CompanyData where
  companyName : String
  address : String
  tel : String
  fax : String
  overview : String
deriving DecidableEq, Repr

/-- The initial company_data value of main.py lines 116-122: every
field is the empty string. -/
def empty_company_data : CompanyData :=
  ⟨"", "", "", "", ""⟩

/-- Whitespace characters removed by Python str.strip(). -/
def py_is_space (c : Char) : Bool :=
  c = ' ' || c = '\t' || c = '\n' || c = '\r' || c = '\x0b' || c = '\x0c'

/-- Python str.strip() on a character list: drop whitespace from both
ends. -/
def strip_list (cs : List Char) : List Char :=
  ((cs.dropWhile py_is_space).reverse.dropWhile py_is_space).reverse

/-- Python line.split(":", 1) viewed on characters: none when the line
has no colon, otherwise the part before the first colon and the whole
remainder after it. -/
def break_at_colon : List Char → Option (List Char × List Char)
  | [] => none
  | c :: cs =>
    if c = ':' then some ([], cs)
    else
      match break_at_colon cs with
      | none => none
      | some (l, r) => some (c :: l, r)

/-- Python extracted_info split at newlines on characters: split at every
newline, keeping empty pieces (the empty string yields one empty
piece). -/
def split_nl : List Char → List (List Char)
  | [] => [[]]
  | c :: cs =>
    if c = '\n' then [] :: split_nl cs
    else
      match split_nl cs with
      | [] => [[c]]
      | l :: ls => (c :: l) :: ls

/-- The label-dispatch chain of main.py lines 128-137: assign value to
the field whose dictionary key equals the trimmed label, else leave the
record unchanged. -/
def assign_field (d : CompanyData) (key value : String) : CompanyData :=
  if key = "Company Name" then { d with companyName := value }
  else if key = "Address" then { d with address := value }
  else if key = "Tel" then { d with tel := value }
  else if key = "Fax" then { d with fax := value }
  else if key = "Overview" then { d with overview := value }
  else d

/-- The five field labels recognized by the dispatch chain of main.py
lines 128-137. -/
def known_labels : List String :=
  ["Company Name", "Address", "Tel", "Fax", "Overview"]

/-- One iteration of the parsing loop of main.py lines 123-137: skip a
line with no colon, otherwise split at the first colon, strip both
sides and dispatch on the label. -/
def process_line (d : CompanyData) (line : List Char) : CompanyData :=
  match break_at_colon line with
  | none => d
  | some (k, v) => assign_field d (String.mk (strip_list k)) (String.mk (strip_list v))

/-- The response-parsing loop of main.py lines 116-139: fold the
per-line update over the newline-split model output, starting from the
all-empty record. -/
def parse_response (resp : String) : CompanyData :=
  (split_nl resp.toList).foldl process_line empty_company_data

/-- Python-level exceptions observable inside extract_company_info:
a requests RequestException (handled at main.py line 141) or any other
Exception (handled at main.py line 144). -/
inductive PyErr where
  | requestException (msg : String)
  | otherException (msg : String)
deriving DecidableEq, Repr

/-- The fixed extraction instruction built in main.py lines 90-102,
as a function of the scraped page text. -/
def build_prompt (textContent : String) : String :=
  "\n        Extract the following information from the text below:\n" ++
  "        - Company Name\n        - Address\n" ++
  "        - Telephone Number (Tel)\n        - Fax Number (Fax)\n" ++
  "        - A short overview of the company (Overview)\n\n" ++
  "        If any information is not found, leave the field blank.\n\n" ++
  "        Text:\n        " ++ textContent ++ "\n        "

/-- The try-block of extract_company_info (main.py lines 84-139):
fetch the URL (requests.get plus raise_for_status), strip markup
(BeautifulSoup get_text), run the chat completion on the prompt, and
parse the response.  Each effect is an oracle that may raise. -/
def extract_body (fetch : String → Except PyErr String)
    (soupText : String → Except PyErr String)
    (complete : String → Except PyErr String)
    (url : String) : Except PyErr CompanyData := do
  let content ← fetch url
  let textContent ← soupText content
  let resp ← complete (build_prompt textContent)
  pure (parse_response resp)

/-- extract_company_info (main.py lines 74-146): run the try-block;
both except clauses (RequestException at line 141, Exception at line
144) print a diagnostic and return None, modelled as Except.ok none. -/
def extract_company_info (fetch : String → Except PyErr String)
    (soupText : String → Except PyErr String)
    (complete : String → Except PyErr String)
    (url : String) : Except PyErr (Option CompanyData) :=
  match extract_body fetch soupText complete url with
  | .ok d => .ok (some d)
  | .error (.requestException _) => .ok none
  | .error (.otherException _) => .ok none

/-- Python truthiness of an optional environment-variable string:
missing (None) and the empty string are falsy. -/
def truthy : Option String → Bool
  | none => false
  | some s => s ≠ ""

/-- The startup configuration check of main.py lines 20-23: if any of
the three credentials is missing or empty, raise ValueError (a fatal
startup error, modelled as Except.error). -/
def config_check (googleApiKey googleCseId openaiApiKey : Option String) :
    Except String Unit :=
  if truthy googleApiKey && truthy googleCseId && truthy openaiApiKey then
    Except.ok ()
  else
    Except.error "Please set the GOOGLE_API_KEY, GOOGLE_CSE_ID, and OPENAI_API_KEY environment variables."

/-- The pagination loop of google_search_cse (main.py lines 53-71).
The provider oracle p models one service.cse().list(...).execute()
call, taking the start offset and the requested number of items and
returning either the page's links (the res items, possibly absent
which is the empty list) or an HttpError message.  The second
component of the result instruments the loop with the (start, num)
pair of every provider call actually made, for specification purposes;
the first component is the urls list the Python function returns. -/
def cse_loop (p : Nat → Nat → Except String (List String))
    (num_results : Nat) (urls : List String) (start_index : Nat) :
    List String × List (Nat × Nat) :=
  if urls.length < num_results then
    match p start_index (min 10 (num_results - urls.length)) with
    | .error _ => (urls, [(start_index, min 10 (num_results - urls.length))])
    | .ok items =>
      if _h : 100 < start_index + 10 then
        (urls ++ items, [(start_index, min 10 (num_results - urls.length))])
      else
        let t := cse_loop p num_results (urls ++ items) (start_index + 10)
        (t.1, (start_index, min 10 (num_results - urls.length)) :: t.2)
  else (urls, [])
termination_by 101 - start_index
decreasing_by simp_wf; omega

/-- google_search_cse (main.py lines 41-71): run the pagination loop
with an empty urls list from start offset 1 and return the collected
URLs. -/
def google_search_cse (provider : String → Nat → Nat → Except String (List String))
    (query : String) (num_results : Nat) : List String :=
  (cse_loop (provider query) num_results [] 1).1

/-- The instrumented call trace of google_search_cse: the (start, num)
pair of each provider call made while serving the query. -/
def search_calls (provider : String → Nat → Nat → Except String (List String))
    (query : String) (num_results : Nat) : List (Nat × Nat) :=
  (cse_loop (provider query) num_results [] 1).2

/-- Observable outcome of the per-URL retry loop of main.py lines
183-196: the extracted record if any, the number of extraction
attempts made, the number of time.sleep(RETRY_DELAY) pauses performed,
and the final value of the retries counter (which decides the
exhaustion report at line 195). -/
structure RetryResult where
  record : Option CompanyData
  attempts : Nat
  sleeps : Nat
  retries : Nat
deriving DecidableEq, Repr

/-- The while-loop of main.py lines 184-194, compiled structurally:
rem is the number of loop iterations still allowed
(maxRetries - retries) and r the current retries counter.  Each
iteration attempts extraction (the oracle e indexed by the retries
value at call time); on success the loop breaks with the record, on
failure it increments retries, sleeps once and continues. -/
def retry_go (e : Nat → Option CompanyData) : Nat → Nat → RetryResult
  | 0, r => ⟨none, 0, 0, r⟩
  | rem + 1, r =>
    match e r with
    | some d => ⟨some d, 1, 0, r⟩
    | none =>
      let t := retry_go e rem (r + 1)
      ⟨t.record, t.attempts + 1, t.sleeps + 1, t.retries⟩

/-- The retry loop of main.py lines 183-194 started with retries = 0
and bounded by maxRetries iterations. -/
def with_retry (e : Nat → Option CompanyData) (maxRetries : Nat) : RetryResult :=
  retry_go e maxRetries 0

/-- The exhaustion report condition of main.py line 195: the failure
notice is printed iff the final retries counter equals MAX_RETRIES
(here the maxRetries argument). -/
def failure_reported (maxRetries : Nat) (t : RetryResult) : Bool :=
  t.retries == maxRetries

/-- A row of all_company_data as appended in main.py lines 186-189:
the five extracted content fields plus the Keyword and URL provenance
stamped by the orchestrator. -/
structure Record where
  companyName : String
  address : String
  tel : String
  fax : String
  overview : String
  keyword : String
  url : String
deriving DecidableEq, Repr

/-- The provenance stamping of main.py lines 187-188: set the Keyword
and URL fields of a freshly extracted record. -/
def stamp (d : CompanyData) (kw url : String) : Record :=
  ⟨d.companyName, d.address, d.tel, d.fax, d.overview, kw, url⟩

/-- The records appended to all_company_data for one URL (main.py
lines 186-189): one stamped record when the retry loop produced one,
nothing otherwise. -/
def url_records (res : Option CompanyData) (kw url : String) : List Record :=
  match res with
  | some d => [stamp d kw url]
  | none => []

/-- The inner URL loop of main.py lines 181-196 with its accumulator:
process each URL with the retry loop and append its records. -/
def process_urls (e : String → Nat → Option CompanyData) (kw : String) :
    List String → List Record → List Record
  | [], acc => acc
  | url :: rest, acc =>
    process_urls e kw rest
      (acc ++ url_records (with_retry (e url) MAX_RETRIES).record kw url)

/-- The outer keyword loop of main (main.py lines 176-196): search for
each keyword and run the URL loop over the results, threading the
all_company_data accumulator. -/
def main_loop (provider : String → Nat → Nat → Except String (List String))
    (e : String → Nat → Option CompanyData) :
    List String → List Record → List Record
  | [], acc => acc
  | kw :: rest, acc =>
    main_loop provider e rest
      (process_urls e kw (google_search_cse provider kw MAX_RESULTS_PER_KEYWORD) acc)

/-- The all_company_data list accumulated by main (main.py lines
175-196), as a function of the keyword list and the search and
extraction oracles. -/
def main_records (provider : String → Nat → Nat → Except String (List String))
    (e : String → Nat → Option CompanyData) (keywords : List String) : List Record :=
  main_loop provider e keywords []

/-- The records produced for a single keyword: search, then the URL
loop starting from an empty accumulator. -/
def keyword_records (provider : String → Nat → Nat → Except String (List String))
    (e : String → Nat → Option CompanyData) (kw : String) : List Record :=
  process_urls e kw (google_search_cse provider kw MAX_RESULTS_PER_KEYWORD) []

/-- The Keyword and URL provenance pair of a record. -/
def provenance (r : Record) : String × String :=
  (r.keyword, r.url)

/-- The fieldnames list of save_to_csv (main.py line 162): the fixed
CSV column order. -/
def csv_fieldnames : List String :=
  ["Keyword", "Company Name", "Address", "Tel", "Fax", "Overview", "URL"]

/-- One CSV row as written by writer.writerow (main.py line 166): the
record's values in fieldnames order. -/
def record_row (r : Record) : List String :=
  [r.keyword, r.companyName, r.address, r.tel, r.fax, r.overview, r.url]

/-- The row-writing loop of save_to_csv (main.py lines 165-166):
append each record's row to the file contents in order. -/
def write_rows : List Record → List (List String) → List (List String)
  | [], file => file
  | r :: rs, file => write_rows rs (file ++ [record_row r])

/-- save_to_csv (main.py lines 149-167): with an empty record list,
print the no-data notice and perform no file write (none); otherwise
write the header row followed by one row per record (some file
contents). -/
def save_to_csv (data : List Record) : Option (List (List String)) :=
  if data.isEmpty then none
  else some (write_rows data [csv_fieldnames])

/-- A line has no first-colon split exactly when it contains no colon. -/
theorem break_at_colon_eq_none (cs : List Char) :
    break_at_colon cs = none ↔ ':' ∉ cs := by
  induction cs with
  | nil => simp [break_at_colon]
  | cons c cs ih =>
    by_cases hc : c = ':'
    · subst hc; simp [break_at_colon]
    · rw [break_at_colon]
      rw [if_neg hc]
      cases hb : break_at_colon cs with
      | none =>
        have h2 : ':' ∉ cs := ih.mp hb
        simp only [List.mem_cons, not_or]
        constructor
        · intro _
          exact ⟨fun h => hc h.symm, h2⟩
        · intro _
          trivial
      | some pr =>
        obtain ⟨l, r⟩ := pr
        have hne : ¬ (break_at_colon cs = none) := by simp [hb]
        have hmem : ':' ∈ cs := by
          by_contra hnot
          exact hne (ih.mpr hnot)
        simp [hmem]

/-- Splitting at the first colon: when pre has no colon, the split of
pre ++ colon ++ post is exactly (pre, post). -/
theorem break_at_colon_split (pre post : List Char) (h : ':' ∉ pre) :
    break_at_colon (pre ++ ':' :: post) = some (pre, post) := by
  induction pre with
  | nil => simp [break_at_colon]
  | cons c cs ih =>
    have hc : ¬ (c = ':') := fun e => h (by simp [e])
    have htail : ':' ∉ cs := fun hm => h (List.mem_cons_of_mem _ hm)
    simp only [List.cons_append, break_at_colon, List.append_eq, if_neg hc, ih htail]

/-- A label that changes the record under assign_field is one of the
five known labels of the dispatch chain. -/
theorem assign_field_mem (d : CompanyData) (k v : String)
    (h : assign_field d k v ≠ d) : k ∈ known_labels := by
  by_contra hk
  apply h
  simp only [known_labels, List.mem_cons, List.not_mem_nil, or_false, not_or] at hk
  obtain ⟨h1, h2, h3, h4, h5⟩ := hk
  simp [assign_field, h1, h2, h3, h4, h5]

/-- An unrecognized label leaves the record unchanged. -/
theorem assign_field_unknown (d : CompanyData) (k v : String)
    (h : k ∉ known_labels) : assign_field d k v = d := by
  by_contra hne
  exact h (assign_field_mem d k v hne)

/-- When every attempt in the window fails, the retry loop runs all
its iterations: no record, one attempt and one sleep per iteration,
and the retries counter advanced to the end of the window. -/
theorem retry_go_fail (e : Nat → Option CompanyData) :
    ∀ rem r, (∀ n, r ≤ n → n < r + rem → e n = none) →
    retry_go e rem r = ⟨none, rem, rem, r + rem⟩ := by
  intro rem
  induction rem with
  | zero => intro r _; simp [retry_go]
  | succ m ih =>
    intro r h
    have he : e r = none := h r (le_refl r) (by omega)
    have ihr := ih (r + 1) (by intro n h1 h2; exact h n (by omega) (by omega))
    simp only [retry_go, he, ihr]
    congr 1
    omega

/-- When the first success in the window is at absolute index j, the
retry loop stops there: it returns that record, makes j + 1 - r
attempts, sleeps once per preceding failure and leaves retries at j. -/
theorem retry_go_succ (e : Nat → Option CompanyData) :
    ∀ rem r j, r ≤ j → j < r + rem →
    (∀ n, r ≤ n → n < j → e n = none) → (e j).isSome →
    retry_go e rem r = ⟨e j, j + 1 - r, j - r, j⟩ := by
  intro rem
  induction rem with
  | zero => intro r j h1 h2 _ _; omega
  | succ m ih =>
    intro r j h1 h2 hfail hsucc
    by_cases hrj : r = j
    · subst hrj
      obtain ⟨d, hd⟩ := Option.isSome_iff_exists.mp hsucc
      simp [retry_go, hd]
    · have hlt : r < j := lt_of_le_of_ne h1 hrj
      have he : e r = none := hfail r (le_refl r) hlt
      have ihr := ih (r + 1) j (by omega) (by omega)
        (by intro n hn1 hn2; exact hfail n (by omega) hn2) hsucc
      simp only [retry_go, he, ihr]
      congr 1 <;> omega

/-- Two attempt oracles with the same success pattern drive the retry
loop to the same success pattern. -/
theorem retry_go_isSome_congr (e1 e2 : Nat → Option CompanyData)
    (h : ∀ n, (e1 n).isSome = (e2 n).isSome) :
    ∀ rem r, (retry_go e1 rem r).record.isSome = (retry_go e2 rem r).record.isSome := by
  intro rem
  induction rem with
  | zero => intro r; simp [retry_go]
  | succ m ih =>
    intro r
    cases h1 : e1 r with
    | some d1 =>
      have h2 : (e2 r).isSome := by rw [← h r, h1]; rfl
      obtain ⟨d2, hd2⟩ := Option.isSome_iff_exists.mp h2
      simp [retry_go, h1, hd2]
    | none =>
      have h2 : e2 r = none := by
        have := h r
        rw [h1] at this
        exact Option.not_isSome_iff_eq_none.mp (by rw [← this]; simp)
      simp only [retry_go, h1, h2]
      exact ih (r + 1)

/-- When each provider page returns at most the number of items
requested, the pagination loop never collects more than num_results
URLs. -/
theorem cse_loop_len (p : Nat → Nat → Except String (List String)) (d : Nat)
    (hp : ∀ s n items, p s n = Except.ok items → items.length ≤ n) :
    ∀ urls s, urls.length ≤ d → (cse_loop p d urls s).1.length ≤ d := by
  intro urls s
  induction urls, s using cse_loop.induct p d with
  | case1 urls s hlt a herr =>
    intro hu
    rw [cse_loop]
    simp [hlt, herr, hu]
  | case2 urls s hlt items hok hbig =>
    intro _
    have hi := hp s _ _ hok
    rw [cse_loop]
    simp only [if_pos hlt, hok, dif_pos hbig]
    simp only [List.length_append]
    omega
  | case3 urls s hlt items hok hbig ih =>
    intro _
    have hi := hp s _ _ hok
    rw [cse_loop]
    simp only [if_pos hlt, hok, dif_neg hbig]
    exact ih (by simp only [List.length_append]; omega)
  | case4 urls s hge =>
    intro hu
    rw [cse_loop]
    simp [hge, hu]

/-- Every provider call the pagination loop makes requests at most 10
items, and is made at an offset of at most 100 when the loop starts at
an offset of at most 100. -/
theorem cse_loop_calls (p : Nat → Nat → Except String (List String)) (d : Nat) :
    ∀ urls s, s ≤ 100 → ∀ c ∈ (cse_loop p d urls s).2, c.2 ≤ 10 ∧ c.1 ≤ 100 := by
  intro urls s
  induction urls, s using cse_loop.induct p d with
  | case1 urls s hlt a herr =>
    intro hs c hc
    rw [cse_loop] at hc
    simp only [if_pos hlt, herr, List.mem_singleton] at hc
    subst hc
    exact ⟨by simp, hs⟩
  | case2 urls s hlt items hok hbig =>
    intro hs c hc
    rw [cse_loop] at hc
    simp only [if_pos hlt, hok, dif_pos hbig, List.mem_singleton] at hc
    subst hc
    exact ⟨by simp, hs⟩
  | case3 urls s hlt items hok hbig ih =>
    intro hs c hc
    rw [cse_loop] at hc
    simp only [if_pos hlt, hok, dif_neg hbig, List.mem_cons] at hc
    rcases hc with hc | hc
    · subst hc
      exact ⟨by simp, hs⟩
    · exact ih (by omega) c hc
  | case4 urls s hge =>
    intro hs c hc
    rw [cse_loop] at hc
    simp [hge] at hc

/-- The offsets of the provider calls made by the pagination loop form
the arithmetic progression s, s + 10, s + 20, ... . -/
theorem cse_loop_offsets (p : Nat → Nat → Except String (List String)) (d : Nat) :
    ∀ urls s, (cse_loop p d urls s).2.map Prod.fst =
      (List.range (cse_loop p d urls s).2.length).map (fun i => s + 10 * i) := by
  intro urls s
  induction urls, s using cse_loop.induct p d with
  | case1 urls s hlt a herr =>
    rw [cse_loop]
    simp [hlt, herr, List.range_succ]
  | case2 urls s hlt items hok hbig =>
    rw [cse_loop]
    simp only [if_pos hlt, hok, dif_pos hbig]
    simp [List.range_succ]
  | case3 urls s hlt items hok hbig ih =>
    rw [cse_loop]
    simp only [if_pos hlt, hok, dif_neg hbig, List.map_cons, List.length_cons]
    rw [ih]
    rw [List.range_succ_eq_map]
    simp only [List.map_cons, List.map_map, Nat.mul_zero, Nat.add_zero]
    congr 1
    apply List.map_congr_left
    intro i _
    simp only [Function.comp_apply]
    omega
  | case4 urls s hge =>
    rw [cse_loop]
    simp [hge]

/-- Every URL the pagination loop returns is either already in the
accumulator or comes from some successful provider page. -/
theorem cse_loop_mem (p : Nat → Nat → Except String (List String)) (d : Nat) :
    ∀ urls s x, x ∈ (cse_loop p d urls s).1 →
      x ∈ urls ∨ ∃ s' n items, p s' n = Except.ok items ∧ x ∈ items := by
  intro urls s
  induction urls, s using cse_loop.induct p d with
  | case1 urls s hlt a herr =>
    intro x hx
    rw [cse_loop] at hx
    simp only [if_pos hlt, herr] at hx
    exact Or.inl hx
  | case2 urls s hlt items hok hbig =>
    intro x hx
    rw [cse_loop] at hx
    simp only [if_pos hlt, hok, dif_pos hbig, List.mem_append] at hx
    rcases hx with hx | hx
    · exact Or.inl hx
    · exact Or.inr ⟨s, _, items, hok, hx⟩
  | case3 urls s hlt items hok hbig ih =>
    intro x hx
    rw [cse_loop] at hx
    simp only [if_pos hlt, hok, dif_neg hbig] at hx
    rcases ih x hx with hx' | hx'
    · rcases List.mem_append.mp hx' with hx'' | hx''
      · exact Or.inl hx''
      · exact Or.inr ⟨s, _, items, hok, hx''⟩
    · exact Or.inr hx'
  | case4 urls s hge =>
    intro x hx
    rw [cse_loop] at hx
    simp only [if_neg hge] at hx
    exact Or.inl hx

/-- Every URL returned by google_search_cse comes from a successful
provider page for that query. -/
theorem search_mem (provider : String → Nat → Nat → Except String (List String))
    (q : String) (d : Nat) (x : String)
    (hx : x ∈ google_search_cse provider q d) :
    ∃ s n items, provider q s n = Except.ok items ∧ x ∈ items := by
  rcases cse_loop_mem (provider q) d [] 1 x hx with h | h
  · simp at h
  · exact h

/-- The URL loop with a non-empty accumulator equals the accumulator
followed by the URL loop from an empty accumulator. -/
theorem process_urls_append (e : String → Nat → Option CompanyData) (kw : String) :
    ∀ urls acc, process_urls e kw urls acc = acc ++ process_urls e kw urls [] := by
  intro urls
  induction urls with
  | nil => intro acc; simp [process_urls]
  | cons url rest ih =>
    intro acc
    rw [process_urls, process_urls, ih, ih (List.nil ++ _)]
    simp [List.append_assoc]

/-- Every record produced by the URL loop is either from the
accumulator or the stamped extraction of some URL in the list that
succeeded within the retry budget. -/
theorem process_urls_mem (e : String → Nat → Option CompanyData) (kw : String) :
    ∀ urls acc r, r ∈ process_urls e kw urls acc →
      r ∈ acc ∨ ∃ url ∈ urls, ∃ dd, (with_retry (e url) MAX_RETRIES).record = some dd ∧
        r = stamp dd kw url := by
  intro urls
  induction urls with
  | nil => intro acc r hr; exact Or.inl hr
  | cons url rest ih =>
    intro acc r hr
    rw [process_urls] at hr
    rcases ih _ r hr with hr' | hr'
    · rcases List.mem_append.mp hr' with hacc | hur
      · exact Or.inl hacc
      · cases hrec : (with_retry (e url) MAX_RETRIES).record with
        | some dd =>
          rw [hrec] at hur
          simp only [url_records, List.mem_singleton] at hur
          exact Or.inr ⟨url, List.mem_cons_self url rest, dd, hrec, hur⟩
        | none =>
          rw [hrec] at hur
          simp [url_records] at hur
    · obtain ⟨u, hu, dd, hdd, hst⟩ := hr'
      exact Or.inr ⟨u, List.mem_cons_of_mem _ hu, dd, hdd, hst⟩

/-- The keyword loop is the concatenation of the per-keyword record
lists, in keyword order. -/
theorem main_loop_eq_flatMap (provider : String → Nat → Nat → Except String (List String))
    (e : String → Nat → Option CompanyData) :
    ∀ ks acc, main_loop provider e ks acc = acc ++ ks.flatMap (keyword_records provider e) := by
  intro ks
  induction ks with
  | nil => intro acc; simp [main_loop]
  | cons kw rest ih =>
    intro acc
    rw [main_loop, ih, process_urls_append]
    simp [keyword_records, List.append_assoc]

/-- The row-writing loop appends the rows of the records, in order, to
the file contents. -/
theorem write_rows_eq : ∀ (rs : List Record) (file : List (List String)),
    write_rows rs file = file ++ rs.map record_row := by
  intro rs
  induction rs with
  | nil => intro file; simp [write_rows]
  | cons r rest ih =>
    intro file
    rw [write_rows, ih]
    simp [List.append_assoc]

/-- C1: for every URL, the retry loop makes exactly min(k, maxAttempts)
extraction attempts: if every attempt fails it makes exactly
maxAttempts attempts, leaves no record, appends nothing and reports
exhaustion; if the first success is attempt k ≤ maxAttempts it makes
exactly k attempts, appends exactly one record and reports no
exhaustion. -/
theorem c1_retry_attempt_counts (e : Nat → Option CompanyData) (M k : Nat)
    (kw url : String) :
    ((∀ n, n < M → e n = none) →
      (with_retry e M).attempts = M ∧ (with_retry e M).record = none ∧
      failure_reported M (with_retry e M) = true ∧
      url_records (with_retry e M).record kw url = []) ∧
    (1 ≤ k → k ≤ M → (∀ n, n < k - 1 → e n = none) → (e (k - 1)).isSome →
      (with_retry e M).attempts = k ∧ (with_retry e M).record = e (k - 1) ∧
      failure_reported M (with_retry e M) = false ∧
      (url_records (with_retry e M).record kw url).length = 1) := by
  constructor
  · intro h
    rw [with_retry, retry_go_fail e M 0 (by intro n _ h2; exact h n (by omega))]
    simp [failure_reported, url_records]
  · intro hk1 hkM hfail hsucc
    rw [with_retry, retry_go_succ e M 0 (k - 1) (by omega) (by omega)
      (by intro n _ h2; exact hfail n h2) hsucc]
    obtain ⟨d, hd⟩ := Option.isSome_iff_exists.mp hsucc
    refine ⟨by show k - 1 + 1 - 0 = k; omega, rfl, ?_, ?_⟩
    · show (k - 1 == M) = false
      exact beq_false_of_ne (by omega)
    · rw [hd]
      simp [url_records]

/-- C1 witness: with an always-failing oracle and the default budget
of 3, exactly 3 attempts are made; with an oracle whose first success
is attempt 2, exactly 2 attempts are made and one record is appended. -/
theorem c1_retry_attempt_counts_witness :
    (with_retry (fun _ => none) 3).attempts = 3 ∧
    (with_retry (fun n => if n = 1 then some empty_company_data else none) 3).attempts = 2 ∧
    (url_records (with_retry (fun n => if n = 1 then some empty_company_data else none) 3).record
      "roofing contractor" "http://b.example").length = 1 := by
  refine ⟨?_, ?_, ?_⟩
  · exact ((c1_retry_attempt_counts (fun _ => none) 3 1 "roofing contractor"
      "http://b.example").1 (by intro n _; rfl)).1
  · exact ((c1_retry_attempt_counts (fun n => if n = 1 then some empty_company_data else none)
      3 2 "roofing contractor" "http://b.example").2 (by omega) (by omega)
      (by intro n hn; have h0 : n = 0 := Nat.lt_one_iff.mp (by omega); subst h0; rfl)
      (by rfl)).1
  · exact ((c1_retry_attempt_counts (fun n => if n = 1 then some empty_company_data else none)
      3 2 "roofing contractor" "http://b.example").2 (by omega) (by omega)
      (by intro n hn; have h0 : n = 0 := Nat.lt_one_iff.mp (by omega); subst h0; rfl)
      (by rfl)).2.2.2

/-- C2 counterexample: the claim says an always-failing URL performs
exactly maxAttempts minus 1 delays; with the default budget of 3 the
code performs 3 delays, not 2, because the loop sleeps after every
failure including the final one. -/
theorem c2_delay_counterexample :
    (with_retry (fun _ => none) 3).sleeps = 3 ∧
    ¬ (with_retry (fun _ => none) 3).sleeps = 3 - 1 := by
  decide

/-- C2 amended: the retry delay (default 5, with default budget 3) is
waited after every failed attempt, including the one that exhausts the
budget, and never after a success; hence an always-failing URL
performs exactly maxAttempts delays and a URL succeeding on attempt k
performs exactly k - 1 delays. -/
theorem c2_delay_after_every_failure (e : Nat → Option CompanyData) (M k : Nat) :
    MAX_RETRIES = 3 ∧ RETRY_DELAY = 5 ∧
    ((∀ n, n < M → e n = none) → (with_retry e M).sleeps = M) ∧
    (1 ≤ k → k ≤ M → (∀ n, n < k - 1 → e n = none) → (e (k - 1)).isSome →
      (with_retry e M).sleeps = k - 1) := by
  refine ⟨rfl, rfl, ?_, ?_⟩
  · intro h
    rw [with_retry, retry_go_fail e M 0 (by intro n _ h2; exact h n (by omega))]
  · intro hk1 hkM hfail hsucc
    rw [with_retry, retry_go_succ e M 0 (k - 1) (by omega) (by omega)
      (by intro n _ h2; exact hfail n h2) hsucc]
    rfl

/-- C2 witness: with budget 4 and an always-failing oracle the loop
performs 4 delays. -/
theorem c2_delay_after_every_failure_witness :
    (with_retry (fun _ => none) 4).sleeps = 4 :=
  (c2_delay_after_every_failure (fun _ => none) 4 1).2.2.1 (by intro n _; rfl)

/-- C3 counterexample: no representative-name field exists: a
well-formed Representative Name line assigns nothing, the label is not
recognized, and the dispatch chain knows 5 labels, not 6. -/
theorem c3_representative_counterexample :
    parse_response "Representative Name: Alice" = empty_company_data ∧
    "Representative Name" ∉ known_labels ∧
    known_labels.length = 5 ∧ ¬ known_labels.length = 6 := by
  decide

/-- C3 amended: an Extracted Record carries five content fields
(company name, address, telephone, fax, overview) and no
representative-name field; the response parser recognizes exactly
these five labels, assigning the value into the corresponding field on
an exact match and leaving the record unchanged otherwise. -/
theorem c3_five_content_fields (d : CompanyData) (k v : String) :
    (assign_field d k v ≠ d → k ∈ known_labels) ∧
    (k ∉ known_labels → assign_field d k v = d) ∧
    (∀ v', assign_field d "Company Name" v' = { d with companyName := v' } ∧
      assign_field d "Address" v' = { d with address := v' } ∧
      assign_field d "Tel" v' = { d with tel := v' } ∧
      assign_field d "Fax" v' = { d with fax := v' } ∧
      assign_field d "Overview" v' = { d with overview := v' }) ∧
    known_labels = ["Company Name", "Address", "Tel", "Fax", "Overview"] := by
  refine ⟨assign_field_mem d k v, assign_field_unknown d k v, ?_, rfl⟩
  intro v'
  refine ⟨?_, ?_, ?_, ?_, ?_⟩ <;> simp [assign_field]

/-- C3 witness: the Tel label is among the recognized labels, shown by
an assignment that changes the record. -/
theorem c3_five_content_fields_witness : "Tel" ∈ known_labels :=
  (c3_five_content_fields empty_company_data "Tel" "555-0100").1 (by decide)

/-- C4: assuming each provider page returns at most the number of
items requested, search returns between 0 and desired_count URLs,
every provider call requests at most 10 items at an offset of at most
100, and the call offsets start at 1 and advance by the fixed page
size 10 after each call. -/
theorem c4_search_pagination (provider : String → Nat → Nat → Except String (List String))
    (q : String) (d : Nat)
    (hp : ∀ s n items, provider q s n = Except.ok items → items.length ≤ n) :
    (google_search_cse provider q d).length ≤ d ∧
    (∀ c ∈ search_calls provider q d, c.2 ≤ 10 ∧ c.1 ≤ 100) ∧
    (search_calls provider q d).map Prod.fst =
      (List.range (search_calls provider q d).length).map (fun i => 1 + 10 * i) := by
  refine ⟨?_, ?_, ?_⟩
  · exact cse_loop_len (provider q) d hp [] 1 (by simp)
  · exact cse_loop_calls (provider q) d [] 1 (by omega)
  · exact cse_loop_offsets (provider q) d [] 1

/-- C4 witness: a provider that always fills the requested page keeps
the result within the desired count of 5. -/
theorem c4_search_pagination_witness :
    (google_search_cse (fun _ _ n => Except.ok (List.replicate n "http://a.example"))
      "marketing agency in London" 5).length ≤ 5 :=
  (c4_search_pagination (fun _ _ n => Except.ok (List.replicate n "http://a.example"))
    "marketing agency in London" 5
    (by intro s n items h; injection h with h2; subst h2; simp)).1

/-- C5: extract never propagates an exception: for every behaviour of
the fetch, markup-stripping and completion effects the result is a
normal return (Except.ok), with any raised error converted to the
failure outcome none and a successful body returned as some record;
and missing or empty startup configuration is the fatal error. -/
theorem c5_extract_contains_errors
    (fetch soupText complete : String → Except PyErr String) (url : String) :
    (∃ r, extract_company_info fetch soupText complete url = Except.ok r) ∧
    (∀ err, extract_body fetch soupText complete url = Except.error err →
      extract_company_info fetch soupText complete url = Except.ok none) ∧
    (∀ dd, extract_body fetch soupText complete url = Except.ok dd →
      extract_company_info fetch soupText complete url = Except.ok (some dd)) ∧
    (∀ g c o, truthy g = false ∨ truthy c = false ∨ truthy o = false →
      ∃ m, config_check g c o = Except.error m) := by
  refine ⟨?_, ?_, ?_, ?_⟩
  · cases hb : extract_body fetch soupText complete url with
    | ok dd => exact ⟨some dd, by simp [extract_company_info, hb]⟩
    | error err =>
      cases err with
      | requestException m => exact ⟨none, by simp [extract_company_info, hb]⟩
      | otherException m => exact ⟨none, by simp [extract_company_info, hb]⟩
  · intro err herr
    cases err with
    | requestException m => simp [extract_company_info, herr]
    | otherException m => simp [extract_company_info, herr]
  · intro dd hok
    simp [extract_company_info, hok]
  · intro g c o h
    have hcond : (truthy g && truthy c && truthy o) = false := by
      rcases h with h | h | h <;> simp [h]
    refine ⟨"Please set the GOOGLE_API_KEY, GOOGLE_CSE_ID, and OPENAI_API_KEY environment variables.", ?_⟩
    simp [config_check, hcond]

/-- C5 witness: a fetch that raises a RequestException yields the
failure outcome none, not a propagated exception, and a missing first
credential makes the configuration check fail. -/
theorem c5_extract_contains_errors_witness :
    extract_company_info (fun _ => Except.error (PyErr.requestException "timeout"))
      (fun c => Except.ok c) (fun _ => Except.ok "") "http://a.example" = Except.ok none ∧
    (∃ m, config_check none (some "cse-id") (some "openai-key") = Except.error m) := by
  constructor
  · exact (c5_extract_contains_errors (fun _ => Except.error (PyErr.requestException "timeout"))
      (fun c => Except.ok c) (fun _ => Except.ok "") "http://a.example").2.1
      (PyErr.requestException "timeout") rfl
  · exact (c5_extract_contains_errors (fun _ => Except.ok "") (fun c => Except.ok c)
      (fun _ => Except.ok "") "u").2.2.2 none (some "cse-id") (some "openai-key") (Or.inl rfl)

/-- C7: the response parser processes the model output line by line: a
line with no colon leaves the record unchanged; a line with a colon is
split at the first colon, both sides are whitespace-trimmed and the
value is dispatched on the trimmed label; an unrecognized label leaves
the record unchanged. -/
theorem c7_line_parsing (d : CompanyData) (line : List Char) :
    (':' ∉ line → process_line d line = d) ∧
    (∀ pre post, ':' ∉ pre → line = pre ++ ':' :: post →
      process_line d line =
        assign_field d (String.mk (strip_list pre)) (String.mk (strip_list post))) ∧
    (∀ k v, k ∉ known_labels → assign_field d k v = d) := by
  refine ⟨?_, ?_, fun k v => assign_field_unknown d k v⟩
  · intro h
    simp [process_line, (break_at_colon_eq_none line).mpr h]
  · intro pre post hpre hline
    subst hline
    simp [process_line, break_at_colon_split pre post hpre]

/-- C7 witness: a concrete labelled line is split at its first colon,
trimmed and assigned. -/
theorem c7_line_parsing_witness :
    process_line empty_company_data ("Company Name: Acme Roofing".toList) =
      assign_field empty_company_data "Company Name" "Acme Roofing" := by
  have h := (c7_line_parsing empty_company_data ("Company Name: Acme Roofing".toList)).2.1
    ("Company Name".toList) (" Acme Roofing".toList) (by decide) (by decide)
  rw [h]
  decide

/-- C8: a provider-level error aborts pagination immediately, the
search returns exactly the URLs collected before the error with no
further provider call, and the run continues: the batch result is the
concatenation of the per-keyword results, so a truncated query leaves
the remaining keywords' work unchanged. -/
theorem c8_provider_error_truncates :
    (∀ (p : Nat → Nat → Except String (List String)) (d : Nat) (urls : List String)
      (s : Nat) (msg : String),
      urls.length < d → p s (min 10 (d - urls.length)) = Except.error msg →
      (cse_loop p d urls s).1 = urls ∧
      (cse_loop p d urls s).2 = [(s, min 10 (d - urls.length))]) ∧
    (∀ provider e keywords, main_records provider e keywords =
      keywords.flatMap (keyword_records provider e)) := by
  constructor
  · intro p d urls s msg hlt herr
    refine ⟨?_, ?_⟩ <;> (rw [cse_loop]; simp [hlt, herr])
  · intro provider e keywords
    rw [main_records, main_loop_eq_flatMap]
    simp

/-- C8 witness: a provider failing its first call makes search return
the empty list already collected. -/
theorem c8_provider_error_truncates_witness :
    (cse_loop (fun _ _ => Except.error "HttpError 429") 5 [] 1).1 = [] :=
  (c8_provider_error_truncates.1 (fun _ _ => Except.error "HttpError 429") 5 [] 1
    "HttpError 429" (by decide) rfl).1

/-- C9: the sink writes, for a non-empty record list, a header row in
the fixed column order followed by exactly one row per record in list
order, and for an empty record list performs no write. -/
theorem c9_sink_rows (data : List Record) :
    save_to_csv [] = none ∧
    (data ≠ [] → save_to_csv data = some (csv_fieldnames :: data.map record_row)) := by
  constructor
  · rfl
  · intro h
    rw [save_to_csv, if_neg (by simpa [List.isEmpty_iff] using h), write_rows_eq]
    simp

/-- C9 witness: a singleton record list produces the header plus its
single row. -/
theorem c9_sink_rows_witness :
    save_to_csv [stamp empty_company_data "roofing contractor" "http://b.example"] =
      some (csv_fieldnames ::
        [stamp empty_company_data "roofing contractor" "http://b.example"].map record_row) :=
  (c9_sink_rows [stamp empty_company_data "roofing contractor" "http://b.example"]).2 (by simp)

/-- C6: every record ever appended to the result set carries non-empty
Keyword and URL provenance equal to the keyword and URL being
processed at the time of the append, provided the configured keywords
and the provider's links are non-empty strings, and regardless of the
content fields. -/
theorem c6_provenance_invariant (keywords : List String)
    (provider : String → Nat → Nat → Except String (List String))
    (e : String → Nat → Option CompanyData)
    (hkw : ∀ kw ∈ keywords, kw ≠ "")
    (hlinks : ∀ q s n items, provider q s n = Except.ok items → ∀ u ∈ items, u ≠ "") :
    ∀ r ∈ main_records provider e keywords,
      r.keyword ≠ "" ∧ r.url ≠ "" ∧
      ∃ kw ∈ keywords, ∃ url ∈ google_search_cse provider kw MAX_RESULTS_PER_KEYWORD,
        r.keyword = kw ∧ r.url = url ∧
        ∃ dd, (with_retry (e url) MAX_RETRIES).record = some dd ∧ r = stamp dd kw url := by
  intro r hr
  rw [main_records, main_loop_eq_flatMap] at hr
  simp only [List.nil_append] at hr
  obtain ⟨kw, hkwmem, hrkw⟩ := List.mem_flatMap.mp hr
  rcases process_urls_mem e kw _ _ r hrkw with h | h
  · simp at h
  · obtain ⟨url, hurl, dd, hdd, hst⟩ := h
    have hkne : kw ≠ "" := hkw kw hkwmem
    have hune : url ≠ "" := by
      obtain ⟨s, n, items, hok, hmem⟩ :=
        search_mem provider kw MAX_RESULTS_PER_KEYWORD url hurl
      exact hlinks kw s n items hok url hmem
    subst hst
    exact ⟨hkne, hune, kw, hkwmem, url, hurl, rfl, rfl, dd, hdd, rfl⟩

/-- C6 witness: a concrete run with one keyword and a provider filling
each page yields an appended record whose provenance is the non-empty
keyword and URL being processed. -/
theorem c6_provenance_invariant_witness :
    (stamp empty_company_data "roofing contractor" "http://b.example").keyword ≠ "" ∧
    (stamp empty_company_data "roofing contractor" "http://b.example").url ≠ "" := by
  have h := c6_provenance_invariant ["roofing contractor"]
    (fun _ _ n => Except.ok (List.replicate n "http://b.example"))
    (fun _ _ => some empty_company_data)
    (by intro kw hkw; rw [List.mem_singleton] at hkw; subst hkw; decide)
    (by intro q s n items hok u hu
        injection hok with h2
        subst h2
        have hu2 := List.eq_of_mem_replicate hu
        subst hu2
        decide)
    (stamp empty_company_data "roofing contractor" "http://b.example")
    (by simp [main_records, main_loop, process_urls, google_search_cse, cse_loop,
      MAX_RESULTS_PER_KEYWORD, MAX_RETRIES, with_retry, retry_go, url_records,
      List.replicate])
  exact ⟨h.1, h.2.1⟩

/-- C10 helper: the URL loop maps two extraction oracles with the same
success pattern to record lists with the same provenance sequence. -/
theorem process_urls_prov_congr (e1 e2 : String → Nat → Option CompanyData)
    (h : ∀ u n, (e1 u n).isSome = (e2 u n).isSome) (kw : String) :
    ∀ urls acc1 acc2, acc1.map provenance = acc2.map provenance →
      (process_urls e1 kw urls acc1).map provenance =
        (process_urls e2 kw urls acc2).map provenance := by
  intro urls
  induction urls with
  | nil => intro acc1 acc2 hacc; simpa [process_urls] using hacc
  | cons url rest ih =>
    intro acc1 acc2 hacc
    rw [process_urls, process_urls]
    apply ih
    rw [List.map_append, List.map_append, hacc]
    congr 1
    have hs : (with_retry (e1 url) MAX_RETRIES).record.isSome
        = (with_retry (e2 url) MAX_RETRIES).record.isSome :=
      retry_go_isSome_congr (e1 url) (e2 url) (h url) MAX_RETRIES 0
    cases h1 : (with_retry (e1 url) MAX_RETRIES).record with
    | some d1 =>
      have h2s : (with_retry (e2 url) MAX_RETRIES).record.isSome := by
        rw [← hs, h1]
        rfl
      obtain ⟨d2, h2⟩ := Option.isSome_iff_exists.mp h2s
      rw [h2]
      simp [url_records, provenance, stamp]
    | none =>
      have h2n : (with_retry (e2 url) MAX_RETRIES).record = none := by
        apply Option.not_isSome_iff_eq_none.mp
        rw [← hs, h1]
        simp
      rw [h2n]

/-- C10 helper: the keyword loop preserves equality of provenance
sequences across extraction oracles with the same success pattern. -/
theorem main_loop_prov_congr (provider : String → Nat → Nat → Except String (List String))
    (e1 e2 : String → Nat → Option CompanyData)
    (h : ∀ u n, (e1 u n).isSome = (e2 u n).isSome) :
    ∀ ks acc1 acc2, acc1.map provenance = acc2.map provenance →
      (main_loop provider e1 ks acc1).map provenance =
        (main_loop provider e2 ks acc2).map provenance := by
  intro ks
  induction ks with
  | nil => intro acc1 acc2 hacc; simpa [main_loop] using hacc
  | cons kw rest ih =>
    intro acc1 acc2 hacc
    rw [main_loop, main_loop]
    exact ih _ _ (process_urls_prov_congr e1 e2 h kw _ acc1 acc2 hacc)

/-- C10: the provenance of the appended records depends only on the
keywords and URLs, never on the model output: two runs whose
extraction oracles differ only in record content (same success
pattern) produce the same sequence of (Keyword, URL) provenance pairs,
and the provenance stamped on a parsed response is the processed
keyword and URL whatever the response says. -/
theorem c10_provenance_oblivious (keywords : List String)
    (provider : String → Nat → Nat → Except String (List String))
    (e1 e2 : String → Nat → Option CompanyData)
    (h : ∀ u n, (e1 u n).isSome = (e2 u n).isSome) :
    (main_records provider e1 keywords).map provenance =
      (main_records provider e2 keywords).map provenance ∧
    (∀ resp kw url, provenance (stamp (parse_response resp) kw url) = (kw, url)) := by
  constructor
  · exact main_loop_prov_congr provider e1 e2 h keywords [] [] rfl
  · intro resp kw url
    rfl

/-- C10 witness: two oracles that both always succeed but return
different content produce the same provenance sequence; a response
containing Keyword and URL labelled lines cannot change the stamped
provenance. -/
theorem c10_provenance_oblivious_witness :
    (main_records (fun _ _ n => Except.ok (List.replicate n "http://b.example"))
        (fun _ _ => some empty_company_data) ["roofing contractor"]).map provenance =
      (main_records (fun _ _ n => Except.ok (List.replicate n "http://b.example"))
        (fun _ _ => some (parse_response "Keyword: evil\nURL: evil")) ["roofing contractor"]).map provenance :=
  (c10_provenance_oblivious ["roofing contractor"]
    (fun _ _ n => Except.ok (List.replicate n "http://b.example"))
    (fun _ _ => some empty_company_data)
    (fun _ _ => some (parse_response "Keyword: evil\nURL: evil"))
    (fun _ _ => rfl)).1

end LeadGen
